import Mathlib

/-!
Verification of the open-graph-rs crate: a shallow embedding of
`src/lib.rs`, `src/article.rs` and `src/profile.rs` (Open Graph metadata
rendered to an HTML fragment), with theorems about the node tree the
assembler builds and the string the serializer emits.

Rust `Option<String>` becomes `Option String`, `Vec<T>` becomes `List T`,
`Cow<str>`/`OptionalCow<str>` (an ownership distinction with no behavioural
content) becomes plain `String`/`Option String`, and `Either<&str, Node>`
becomes `Sum String Node`.
-/

namespace OpenGraphRs

/-- Embedding of `struct Node` from `src/lib.rs`: tag name, ordered
attribute list, ordered child list, optional text content. -/
structure Node where
  name : String
  attr : List (String × String)
  children : List Node
  text : Option String

/-- One attribute rendered the way the attribute loop of `Node::to_html`
renders it: a space, the key, an equals sign and the value in quotes. -/
def attrToHtml (kv : String × String) : String :=
  " " ++ kv.1 ++ "=\"" ++ kv.2 ++ "\""

mutual

/-- Embedding of `Node::to_html` from `src/lib.rs` lines 312-348. -/
def Node.to_html : Node → String
  | ⟨name, attr, children, text⟩ =>
    "<" ++ name ++ String.join (attr.map attrToHtml) ++
      (if children.isEmpty && text.isNone then "/>"
       else ">" ++ childrenToHtml children ++ text.getD "" ++
            "</" ++ name ++ ">")

/-- The child loop of `Node::to_html`: serialize each child in order and
concatenate. -/
def childrenToHtml : List Node → String
  | [] => ""
  | n :: ns => Node.to_html n ++ childrenToHtml ns

end

/-- Model of chrono's conversion from a day count since 1970-01-01 to a
civil (year, month, day) date, for non-negative day counts. -/
def civilFromDays (z0 : Nat) : Nat × Nat × Nat :=
  let z := z0 + 719468
  let era := z / 146097
  let doe := z % 146097
  let yoe := (doe - doe / 1460 + doe / 36524 - doe / 146096) / 365
  let y := yoe + era * 400
  let doy := doe - (365 * yoe + yoe / 4 - yoe / 100)
  let mp := (5 * doy + 2) / 153
  let d := doy - (153 * mp + 2) / 5 + 1
  let m := if mp < 10 then mp + 3 else mp - 9
  (if m ≤ 2 then y + 1 else y, m, d)

/-- Zero-padded two-digit decimal numeral. -/
def pad2 (n : Nat) : String :=
  if n < 10 then "0" ++ toString n else toString n

/-- Zero-padded four-digit decimal numeral. -/
def pad4 (n : Nat) : String :=
  if n < 10 then "000" ++ toString n
  else if n < 100 then "00" ++ toString n
  else if n < 1000 then "0" ++ toString n
  else toString n

/-- Model of chrono's `DateTime<Utc>::to_rfc3339`, the call made by the
`iso8601!` macro of `src/lib.rs` lines 218-224. A `DateTime<Utc>` instant
is represented by its number of seconds since the Unix epoch (the crate
only renders post-epoch instants); a UTC instant always renders with the
`+00:00` offset. -/
def to_rfc3339 (t : Nat) : String :=
  let days := t / 86400
  let secs := t % 86400
  let ymd := civilFromDays days
  pad4 ymd.1 ++ "-" ++ pad2 ymd.2.1 ++ "-" ++ pad2 ymd.2.2 ++ "T" ++
    pad2 (secs / 3600) ++ ":" ++ pad2 (secs % 3600 / 60) ++ ":" ++
    pad2 (secs % 60) ++ "+00:00"

/-- The leaf `meta` node built by both mapper macros of `src/lib.rs`
(`open_graph_nodes_opt!`, lines 64-82, and `open_graph_nodes_vec!`,
lines 87-105). -/
def metaNode (prop content : String) : Node :=
  ⟨"meta", [("property", prop), ("content", content)], [], none⟩

/-- Embedding of the `open_graph_nodes_opt!` macro of `src/lib.rs`
lines 64-82: the macro expands to one `if let Some` push per pair, in
textual order; here the pairs are passed as a list. -/
def open_graph_nodes_opt : List (String × Option String) → List Node
  | [] => []
  | (og, some x) :: rest => metaNode og x :: open_graph_nodes_opt rest
  | (_, none) :: rest => open_graph_nodes_opt rest

/-- Embedding of the `open_graph_nodes_vec!` macro of `src/lib.rs`
lines 87-105: one `for` loop push per pair, in textual order. -/
def open_graph_nodes_vec : List (String × List String) → List Node
  | [] => []
  | (og, xs) :: rest => xs.map (metaNode og) ++ open_graph_nodes_vec rest

/-- Embedding of `merge` from `src/lib.rs` lines 228-232. -/
def merge {T : Type} (xs ys : List T) : List T :=
  xs ++ ys

/-- Embedding of `append` from `src/lib.rs` lines 234-238. -/
def append {T : Type} (xs : List T) (x : T) : List T :=
  xs ++ [x]

/-- Embedding of `append_opt` from `src/lib.rs` lines 240-246. -/
def append_opt {T : Type} (xs : List T) (x : Option T) : List T :=
  match x with
  | some x => xs ++ [x]
  | none => xs

/-- Embedding of `enum Gender` from `src/profile.rs`. -/
inductive Gender
  | Male
  | Female

/-- Embedding of `impl AsRef<str> for Gender`. -/
def Gender.as_ref : Gender → String
  | .Male => "male"
  | .Female => "female"

/-- Embedding of `struct Profile` from `src/profile.rs`. -/
structure Profile where
  first_name : Option String
  last_name : Option String
  username : Option String
  gender : Option Gender

/-- Embedding of `Profile::to_nodes` from `src/profile.rs` lines 33-51. -/
def Profile.to_nodes (p : Profile) : List Node :=
  open_graph_nodes_opt
    [("profile:first_name", p.first_name),
     ("profile:last_name", p.last_name),
     ("profile:username", p.username),
     ("profile:gender", p.gender.map Gender.as_ref)]

/-- Embedding of `struct Article` from `src/article.rs`; the
`DateTime<Utc>` fields are UTC instants as seconds since the Unix epoch.
The Rust field named `section` is a Lean keyword, hence `section_`. -/
structure Article where
  published_time : Option Nat
  modified_time : Option Nat
  expiration_time : Option Nat
  author : List String
  section_ : Option String
  tag : List String

/-- Embedding of `Article::to_nodes` from `src/article.rs` lines 26-48:
the three timestamps are first mapped through `to_rfc3339` (the
`iso8601!` macro), then the optional scalars and the two lists are
mapped and merged. -/
def Article.to_nodes (a : Article) : List Node :=
  let published_time := a.published_time.map to_rfc3339
  let modified_time := a.modified_time.map to_rfc3339
  let expiration_time := a.expiration_time.map to_rfc3339
  merge
    (open_graph_nodes_opt
      [("article:published_time", published_time),
       ("article:modified_time", modified_time),
       ("article:expiration_time", expiration_time),
       ("article:section", a.section_)])
    (open_graph_nodes_vec [("article:author", a.author), ("article:tag", a.tag)])

/-- Embedding of `enum OpenGraphType` from `src/lib.rs` lines 49-53. -/
inductive OpenGraphType
  | Article (article : Article)
  | Profile (profile : Profile)

/-- Embedding of `impl AsRef<str> for OpenGraphType`, lines 55-62. -/
def OpenGraphType.as_ref : OpenGraphType → String
  | .Article _ => "article"
  | .Profile _ => "profile"

/-- Embedding of `struct OpenGraph` from `src/lib.rs` lines 9-47. -/
structure OpenGraph where
  title : Option String
  kind : Option OpenGraphType
  url : Option String
  image : Option String
  audio : Option String
  video : Option String
  description : Option String
  determiner : Option String
  locale : Option String
  alternate_locale : List String
  site_name : Option String
  theme_color : Option String

/-- The `derive(Default)` value of `OpenGraph`: every optional field
absent, every list empty. -/
def OpenGraph.default : OpenGraph :=
  ⟨none, none, none, none, none, none, none, none, none, [], none, none⟩

/-- The `match kind` of `OpenGraph::to_node`, `src/lib.rs` lines 140-152:
the namespace string for the root element and the kind-specific nodes. -/
def nsAndNodes : Option OpenGraphType → String × List Node
  | some (.Article article) =>
      ("og: https://ogp.me/ns# article: http://ogp.me/ns/article#", article.to_nodes)
  | some (.Profile profile) =>
      ("og: https://ogp.me/ns# profile: https://ogp.me/ns/profile#", profile.to_nodes)
  | none => ("og: https://ogp.me/ns#", [])

/-- The `open_graph_nodes` local of `OpenGraph::to_node`, `src/lib.rs`
lines 156-170: the ten optional base scalars in their textual order,
merged with the alternate-locale list nodes. -/
def OpenGraph.baseNodes (og : OpenGraph) : List Node :=
  merge
    (open_graph_nodes_opt
      [("og:title", og.title),
       ("og:type", og.kind.map OpenGraphType.as_ref),
       ("og:url", og.url),
       ("og:image", og.image),
       ("og:audio", og.audio),
       ("og:video", og.video),
       ("og:description", og.description),
       ("og:determiner", og.determiner),
       ("og:locale", og.locale),
       ("og:site_name", og.site_name)])
    (open_graph_nodes_vec [("og:locale:alternate", og.alternate_locale)])

/-- The trailing charset leaf node of `OpenGraph::to_node`, `src/lib.rs`
lines 182-187. -/
def charsetNode : Node :=
  ⟨"meta", [("charset", "utf-8")], [], none⟩

/-- The theme-color leaf node of `OpenGraph::to_node`, `src/lib.rs`
lines 189-194. -/
def themeColorNode (color : String) : Node :=
  ⟨"meta", [("name", "theme-color"), ("content", color)], [], none⟩

/-- The `head` element built inside `OpenGraph::to_node`, `src/lib.rs`
lines 176-197. -/
def OpenGraph.headNode (og : OpenGraph) : Node :=
  ⟨"head", [],
    append_opt
      (append (merge og.baseNodes (nsAndNodes og.kind).2) charsetNode)
      (og.theme_color.map themeColorNode),
    none⟩

/-- The `body` element built from the fallback argument of
`OpenGraph::to_node`, `src/lib.rs` lines 198-211: a text fallback becomes
the body's text with no children, a node fallback becomes the sole child
with no text. -/
def fallbackBody : Sum String Node → Node
  | .inl text => ⟨"body", [], [], some text⟩
  | .inr node => ⟨"body", [], [node], none⟩

/-- Embedding of `OpenGraph::to_node`, `src/lib.rs` lines 124-215. -/
def OpenGraph.to_node (og : OpenGraph) (fallback : Option (Sum String Node)) : Node :=
  ⟨"html", [("prefix", (nsAndNodes og.kind).1)],
    append_opt [og.headNode] (fallback.map fallbackBody),
    none⟩

/-- Embedding of `OpenGraph::to_html`, `src/lib.rs` lines 111-113. -/
def OpenGraph.to_html (og : OpenGraph) : String :=
  (og.to_node none).to_html

/-- Embedding of `OpenGraph::to_html_with_fallback_message`,
`src/lib.rs` lines 115-118. -/
def OpenGraph.to_html_with_fallback_message (og : OpenGraph) (m : String) : String :=
  (og.to_node (some (Sum.inl m))).to_html

/-- Embedding of `OpenGraph::to_html_with_fallback_node`,
`src/lib.rs` lines 120-122. -/
def OpenGraph.to_html_with_fallback_node (og : OpenGraph) (n : Node) : String :=
  (og.to_node (some (Sum.inr n))).to_html

/-! Helper lemmas shared by the claim theorems. -/

theorem foldl_string_append (l : List String) (a : String) :
    List.foldl (fun r s => r ++ s) a l
      = a ++ List.foldl (fun r s => r ++ s) "" l := by
  induction l generalizing a with
  | nil => simp
  | cons s l ih =>
    simp only [List.foldl_cons]
    rw [ih (a ++ s), ih ("" ++ s), String.empty_append, String.append_assoc]

theorem join_cons (s : String) (l : List String) :
    String.join (s :: l) = s ++ String.join l := by
  simp only [String.join, List.foldl_cons]
  rw [foldl_string_append, String.empty_append]

/-- The child loop of the serializer concatenates the children's
serializations in order. -/
theorem childrenToHtml_eq_join (ns : List Node) :
    childrenToHtml ns = String.join (ns.map Node.to_html) := by
  induction ns with
  | nil => rfl
  | cons n ns ih => rw [childrenToHtml, List.map_cons, join_cons, ih]

/-- The optional-scalar mapper, characterized pair by pair. -/
theorem open_graph_nodes_opt_eq (pairs : List (String × Option String)) :
    open_graph_nodes_opt pairs
      = pairs.flatMap (fun p =>
          match p.2 with
          | some v => [metaNode p.1 v]
          | none => []) := by
  induction pairs with
  | nil => rfl
  | cons hd tl ih =>
    obtain ⟨p, v⟩ := hd
    cases v <;> simp [open_graph_nodes_opt, ih]

/-- The list mapper, characterized pair by pair. -/
theorem open_graph_nodes_vec_eq (pairs : List (String × List String)) :
    open_graph_nodes_vec pairs
      = pairs.flatMap (fun p => p.2.map (metaNode p.1)) := by
  induction pairs with
  | nil => rfl
  | cons hd tl ih =>
    obtain ⟨p, xs⟩ := hd
    simp [open_graph_nodes_vec, ih]

/-- Present pairs really reach the output of the optional-scalar mapper. -/
theorem metaNode_mem_opt {pairs : List (String × Option String)} {p v : String}
    (h : (p, some v) ∈ pairs) : metaNode p v ∈ open_graph_nodes_opt pairs := by
  rw [open_graph_nodes_opt_eq]
  exact List.mem_flatMap.mpr ⟨(p, some v), h, by simp⟩

/-- Every node the optional-scalar mapper emits comes from a present pair. -/
theorem mem_open_graph_nodes_opt {pairs : List (String × Option String)} {n : Node}
    (h : n ∈ open_graph_nodes_opt pairs) :
    ∃ p v, (p, some v) ∈ pairs ∧ n = metaNode p v := by
  rw [open_graph_nodes_opt_eq] at h
  obtain ⟨⟨p, v⟩, hp, hn⟩ := List.mem_flatMap.mp h
  cases v with
  | none => simp at hn
  | some v =>
    refine ⟨p, v, hp, ?_⟩
    simpa using hn

/-- Every node the list mapper emits comes from a list element of some
pair. -/
theorem mem_open_graph_nodes_vec {pairs : List (String × List String)} {n : Node}
    (h : n ∈ open_graph_nodes_vec pairs) :
    ∃ p x, (p, x) ∈ (pairs.flatMap fun q => q.2.map (q.1, ·)) ∧ n = metaNode p x := by
  rw [open_graph_nodes_vec_eq] at h
  obtain ⟨⟨p, xs⟩, hp, hn⟩ := List.mem_flatMap.mp h
  obtain ⟨x, hx, rfl⟩ := List.mem_map.mp hn
  exact ⟨p, x, List.mem_flatMap.mpr ⟨(p, xs), hp, List.mem_map.mpr ⟨x, hx, rfl⟩⟩, rfl⟩

/-- The children of the `head` element, flattened into one append chain. -/
theorem headNode_children_eq (og : OpenGraph) :
    og.headNode.children
      = open_graph_nodes_opt
          [("og:title", og.title),
           ("og:type", og.kind.map OpenGraphType.as_ref),
           ("og:url", og.url),
           ("og:image", og.image),
           ("og:audio", og.audio),
           ("og:video", og.video),
           ("og:description", og.description),
           ("og:determiner", og.determiner),
           ("og:locale", og.locale),
           ("og:site_name", og.site_name)] ++
        open_graph_nodes_vec [("og:locale:alternate", og.alternate_locale)] ++
        (nsAndNodes og.kind).2 ++
        [charsetNode] ++
        (match og.theme_color with
         | some color => [themeColorNode color]
         | none => []) := by
  cases h : og.theme_color <;>
    simp [OpenGraph.headNode, OpenGraph.baseNodes, merge, append, append_opt, h,
      List.append_assoc]

/-- The children of the root element: the `head` node, then the optional
fallback body. -/
theorem to_node_children_eq (og : OpenGraph) (fb : Option (Sum String Node)) :
    (og.to_node fb).children
      = og.headNode ::
        (match fb with
         | none => []
         | some x => [fallbackBody x]) := by
  cases fb <;> rfl

/-- A meta node emitted for a property other than og:type never carries
the og:type property pair. -/
theorem og_type_not_mem_metaNode_attr {p v : String} (hp : p ≠ "og:type") :
    ("property", "og:type") ∉ (metaNode p v).attr := by
  simp only [metaNode, List.mem_cons, List.not_mem_nil, or_false, Prod.mk.injEq]
  rintro (⟨h1, h2⟩ | ⟨h1, h2⟩)
  · exact hp h2.symm
  · exact absurd h1 (by decide)

/-- Article node list, flattened into one append chain. -/
theorem article_to_nodes_eq (a : Article) :
    a.to_nodes
      = open_graph_nodes_opt
          [("article:published_time", a.published_time.map to_rfc3339),
           ("article:modified_time", a.modified_time.map to_rfc3339),
           ("article:expiration_time", a.expiration_time.map to_rfc3339),
           ("article:section", a.section_)] ++
        open_graph_nodes_vec [("article:author", a.author), ("article:tag", a.tag)] := by
  simp [Article.to_nodes, merge]

/-! The claims. -/

/-- C1: for every Metadata value, the children of the head element are,
in this exact order: the base scalar leaf nodes for the present fields
among (title, type, url, image, audio, video, description, determiner,
locale, site_name) in that fixed order, then one og:locale:alternate node
per alternate_locale entry, then the kind-specific nodes, then the UTF-8
charset leaf node, then (iff theme_color is present) one theme-color leaf
node last. -/
theorem head_children_order (og : OpenGraph) (fb : Option (Sum String Node)) :
    (og.to_node fb).children.head? = some og.headNode ∧
    og.headNode.children
      = open_graph_nodes_opt
          [("og:title", og.title),
           ("og:type", og.kind.map OpenGraphType.as_ref),
           ("og:url", og.url),
           ("og:image", og.image),
           ("og:audio", og.audio),
           ("og:video", og.video),
           ("og:description", og.description),
           ("og:determiner", og.determiner),
           ("og:locale", og.locale),
           ("og:site_name", og.site_name)] ++
        open_graph_nodes_vec [("og:locale:alternate", og.alternate_locale)] ++
        (nsAndNodes og.kind).2 ++
        [charsetNode] ++
        (match og.theme_color with
         | some color => [themeColorNode color]
         | none => []) := by
  refine ⟨?_, headNode_children_eq og⟩
  rw [to_node_children_eq]
  rfl

/-- C2: for every Node, serialization emits the open angle bracket plus
the tag name, then each attribute in stored order with the value
verbatim; if the child list is empty and the text is absent it emits the
self-closing end and stops, otherwise it emits the closing bracket, each
child recursively in order, the text verbatim if present, and the
closing tag. The two forms are governed by one exclusive test, so a Node
never serializes in both forms. -/
theorem serializer_spec (n : Node) :
    (n.children = [] ∧ n.text = none →
      n.to_html = "<" ++ n.name ++ String.join (n.attr.map attrToHtml) ++ "/>") ∧
    (¬(n.children = [] ∧ n.text = none) →
      n.to_html
        = "<" ++ n.name ++ String.join (n.attr.map attrToHtml) ++ ">" ++
          String.join (n.children.map Node.to_html) ++ n.text.getD "" ++
          "</" ++ n.name ++ ">") := by
  obtain ⟨name, attr, children, text⟩ := n
  constructor
  · rintro ⟨rfl, rfl⟩
    simp [Node.to_html]
  · intro h
    have hcond : (children.isEmpty && text.isNone) = false := by
      cases children <;> cases text <;> simp_all
    rw [Node.to_html]
    simp only [hcond, Bool.false_eq_true, if_false, childrenToHtml_eq_join]
    simp [String.append_assoc]

/-- C2 witness: both serializer forms evaluated on concrete nodes. -/
theorem serializer_spec_witness :
    Node.to_html ⟨"meta", [("charset", "utf-8")], [], none⟩ = "<meta charset=\"utf-8\"/>" ∧
    Node.to_html ⟨"body", [], [], some "hi"⟩ = "<body>hi</body>" := by
  constructor
  · rw [(serializer_spec ⟨"meta", [("charset", "utf-8")], [], none⟩).1 ⟨rfl, rfl⟩]
    rfl
  · rw [(serializer_spec ⟨"body", [], [], some "hi"⟩).2 (by simp)]
    rfl

/-- C3: the optional-scalar mapper emits exactly one leaf meta Node per
present pair, in the declared pair order, and nothing for an absent
value; the list mapper emits one leaf Node per list element preserving
list order, and an empty list contributes zero nodes. -/
theorem mapper_spec (pairs : List (String × Option String))
    (lpairs : List (String × List String)) :
    open_graph_nodes_opt pairs
      = pairs.flatMap (fun p =>
          match p.2 with
          | some v => [metaNode p.1 v]
          | none => []) ∧
    open_graph_nodes_vec lpairs
      = lpairs.flatMap (fun p => p.2.map (metaNode p.1)) ∧
    ∀ p c, metaNode p c = ⟨"meta", [("property", p), ("content", c)], [], none⟩ :=
  ⟨open_graph_nodes_opt_eq pairs, open_graph_nodes_vec_eq lpairs, fun _ _ => rfl⟩

/-- C4: the root element namespace attribute is determined by the kind
exactly as the three literal strings state, and with no kind present the
kind node list is empty and no og:type node occurs anywhere in the head. -/
theorem root_namespace_attr (og : OpenGraph) (fb : Option (Sum String Node)) :
    (og.to_node fb).attr
      = [("prefix",
          match og.kind with
          | none => "og: https://ogp.me/ns#"
          | some (.Article _) => "og: https://ogp.me/ns# article: http://ogp.me/ns/article#"
          | some (.Profile _) => "og: https://ogp.me/ns# profile: https://ogp.me/ns/profile#")] ∧
    (og.kind = none →
      (nsAndNodes og.kind).2 = [] ∧
      ∀ n ∈ og.headNode.children, ("property", "og:type") ∉ n.attr) := by
  constructor
  · rcases h : og.kind with _ | k
    · simp [OpenGraph.to_node, nsAndNodes, h]
    · rcases k <;> simp [OpenGraph.to_node, nsAndNodes, h]
  · intro h
    refine ⟨by simp [h, nsAndNodes], ?_⟩
    intro n hn
    rw [headNode_children_eq, h] at hn
    rcases List.mem_append.mp hn with h4 | h5
    rcases List.mem_append.mp h4 with h3 | hc
    rcases List.mem_append.mp h3 with h2 | hkind
    rcases List.mem_append.mp h2 with hopt | hvec
    · obtain ⟨p, v, hp, rfl⟩ := mem_open_graph_nodes_opt hopt
      simp only [Option.map_none', List.mem_cons, List.not_mem_nil, or_false,
        Prod.mk.injEq, reduceCtorEq, and_false, false_or] at hp
      rcases hp with ⟨rfl, -⟩ | ⟨rfl, -⟩ | ⟨rfl, -⟩ | ⟨rfl, -⟩ | ⟨rfl, -⟩ |
        ⟨rfl, -⟩ | ⟨rfl, -⟩ | ⟨rfl, -⟩ | ⟨rfl, -⟩ <;>
        exact og_type_not_mem_metaNode_attr (by decide)
    · obtain ⟨p, x, hpx, rfl⟩ := mem_open_graph_nodes_vec hvec
      simp only [List.flatMap_cons, List.flatMap_nil, List.append_nil,
        List.mem_map, Prod.mk.injEq] at hpx
      obtain ⟨y, hy, rfl, rfl⟩ := hpx
      exact og_type_not_mem_metaNode_attr (by decide)
    · simp [nsAndNodes] at hkind
    · rw [List.mem_singleton.mp hc]
      decide
    · rcases ht : og.theme_color with _ | c <;> rw [ht] at h5
      · simp at h5
      · rw [List.mem_singleton.mp h5]
        simp only [themeColorNode, List.mem_cons, List.not_mem_nil, or_false,
          Prod.mk.injEq]
        rintro (⟨h1, h2⟩ | ⟨h1, h2⟩) <;> exact absurd h1 (by decide)

/-- C4 witness: the kind-free default value, namespace attribute and
empty kind node list. -/
theorem root_namespace_attr_witness :
    (OpenGraph.default.to_node none).attr = [("prefix", "og: https://ogp.me/ns#")] ∧
    (nsAndNodes OpenGraph.default.kind).2 = [] := by
  have h := root_namespace_attr OpenGraph.default none
  exact ⟨h.1, (h.2 rfl).1⟩

/-- C5: every present Article timestamp field is rendered as the
RFC 3339 textual form of its instant (a `DateTime<Utc>` instant always
carries the UTC offset); in particular the instant given as
2022-12-19T16:39:57+09:00, i.e. Unix second 1671435597, renders as its
UTC-normalized RFC 3339 form 2022-12-19T07:39:57+00:00 exactly. -/
theorem article_timestamps (a : Article) :
    (∀ t, a.published_time = some t →
        metaNode "article:published_time" (to_rfc3339 t) ∈ a.to_nodes) ∧
    (∀ t, a.modified_time = some t →
        metaNode "article:modified_time" (to_rfc3339 t) ∈ a.to_nodes) ∧
    (∀ t, a.expiration_time = some t →
        metaNode "article:expiration_time" (to_rfc3339 t) ∈ a.to_nodes) ∧
    to_rfc3339 1671435597 = "2022-12-19T07:39:57+00:00" := by
  refine ⟨?_, ?_, ?_, by rfl⟩ <;>
    · intro t ht
      rw [article_to_nodes_eq]
      exact List.mem_append_left _ (metaNode_mem_opt (by simp [ht]))

/-- C5 witness: the published-time instant of the conformance test,
rendered. -/
theorem article_timestamps_witness :
    metaNode "article:published_time" "2022-12-19T07:39:57+00:00"
      ∈ (Article.mk (some 1671435597) none none [] none []).to_nodes := by
  have h := (article_timestamps (Article.mk (some 1671435597) none none [] none [])).1
    1671435597 rfl
  rwa [(article_timestamps (Article.mk (some 1671435597) none none [] none [])).2.2.2] at h

/-- C6: the all-absent Metadata value renders to exactly the head-only
document with the bare base namespace and the charset node. -/
theorem render_default_empty :
    OpenGraph.default.to_html
      = "<html prefix=\"og: https://ogp.me/ns#\"><head><meta charset=\"utf-8\"/></head></html>" := by
  rfl

/-- C7: a text fallback becomes the body's text content with no
children, a node fallback becomes the body's sole child with no text,
and with no fallback no body element exists. -/
theorem fallback_body_shape (og : OpenGraph) (fb : Option (Sum String Node)) :
    (og.to_node fb).children
      = og.headNode ::
        (match fb with
         | none => []
         | some (Sum.inl text) => [⟨"body", [], [], some text⟩]
         | some (Sum.inr node) => [⟨"body", [], [node], none⟩]) := by
  rcases fb with _ | (t | m) <;> rfl

/-- C8: the three render entry points are total: each is a plain
function into strings, defined for every Metadata value and every
fallback argument as the serialization of the assembled node tree, with
no failure path. -/
theorem render_total (og : OpenGraph) (m : String) (n : Node) :
    og.to_html = (og.to_node none).to_html ∧
    og.to_html_with_fallback_message m = (og.to_node (some (Sum.inl m))).to_html ∧
    og.to_html_with_fallback_node n = (og.to_node (some (Sum.inr n))).to_html :=
  ⟨rfl, rfl, rfl⟩

/-- C9: rendering is deterministic: the same unmodified Metadata value
always renders to the same string. -/
theorem render_deterministic (og1 og2 : OpenGraph) (h : og1 = og2) :
    og1.to_html = og2.to_html := by
  rw [h]

/-- C9 witness: the default value rendered twice. -/
theorem render_deterministic_witness :
    OpenGraph.default.to_html = OpenGraph.default.to_html :=
  render_deterministic OpenGraph.default OpenGraph.default rfl

/-- C10: rendering with the empty text fallback still appends a body
node whose text is the (present) empty string, and the serializer emits
it with separate opening and closing tags, not self-closing and not
omitted: an empty text value fails the children-empty-and-text-absent
test. -/
theorem empty_fallback_text_body (og : OpenGraph) :
    (og.to_node (some (Sum.inl ""))).children
        = [og.headNode, ⟨"body", [], [], some ""⟩] ∧
    og.to_html_with_fallback_message ""
        = (og.to_node (some (Sum.inl ""))).to_html ∧
    Node.to_html ⟨"body", [], [], some ""⟩ = "<body></body>" ∧
    (Option.some "").isNone = false :=
  ⟨rfl, rfl, rfl, rfl⟩


end OpenGraphRs
